import Mathlib

/-!
Shallow embedding of the `robot_teleop` transform-and-validate pipeline.

Numbers are modelled as exact rationals (`ℚ`); the claims under study are
exact-arithmetic properties (identities, clamping, inclusive comparisons,
tolerance-1e-6 equalities on decimal constants), so `ℚ` is the faithful
carrier for them.  Python exceptions (`ValueError`, `IndexError`,
`TypeError`) are modelled with `Except String`.  Python sequence indexing
(`xs[i]` with `int` index, negative values wrapping from the end and
out-of-range raising `IndexError`) is modelled explicitly by `npIdx`/`npGet`.
-/

namespace RobotTeleop

/-- `robot_teleop/joint_state.py`, `class JointState`: six joint angles, a
gripper scalar, a capture timestamp.  The dataclass constructor performs no
validation on the values. -/
structure JointState where
  joint_0 : ℚ
  joint_1 : ℚ
  joint_2 : ℚ
  joint_3 : ℚ
  joint_4 : ℚ
  joint_5 : ℚ
  gripper : ℚ
  timestamp : ℚ
deriving DecidableEq, Repr

/-- `JointState.to_list`: the six joint values, gripper and timestamp excluded. -/
def JointState.to_list (js : JointState) : List ℚ :=
  [js.joint_0, js.joint_1, js.joint_2, js.joint_3, js.joint_4, js.joint_5]

/-- A Python value that can appear in the sequence handed to
`apply_joint_values`: either a float, or a list of floats (the latter occurs
when `MasterNode.process_joint_state` passes the tuple returned by
`transform_joints` — its first component is the transformed joint list). -/
inductive PySeqElem where
  | float (q : ℚ)
  | floatList (l : List ℚ)
deriving DecidableEq, Repr

/-- Python `float(x)`: identity on a float, `TypeError` on a list. -/
def pyFloat : PySeqElem → Except String ℚ
  | .float q => .ok q
  | .floatList _ => .error "TypeError: float() argument must be a number, not list"

/-- Python `timestamp or time.time()` on an `Optional[float]`: `None` and
`0.0` are falsy, any other float is returned as-is.  `now` stands for the
value `time.time()` would produce at the call. -/
def pyOr (t? : Option ℚ) (now : ℚ) : ℚ :=
  match t? with
  | none => now
  | some t => if t = 0 then now else t

/-- `JointState.from_list`: requires exactly 6 joint values
(`raise ValueError` otherwise), then builds the state with the given gripper
and `timestamp or time.time()`. -/
def JointState.from_list : List ℚ → ℚ → Option ℚ → ℚ → Except String JointState
  | [a, b, c, d, e, f], g, t?, now =>
      .ok ⟨a, b, c, d, e, f, g, pyOr t? now⟩
  | l, _, _, _ =>
      .error ("ValueError: Expected 6 joint values, got " ++ toString l.length)

/-- `JointState.apply_joint_values`: requires a sequence of exactly 6 values
(`raise ValueError` otherwise), converts each with `float(...)`, preserves
the receiver's gripper and stamps `time.time()` (passed as `now`). -/
def JointState.apply_joint_values (js : JointState) (vals : List PySeqElem)
    (now : ℚ) : Except String JointState :=
  match vals with
  | [a, b, c, d, e, f] => do
      let a ← pyFloat a
      let b ← pyFloat b
      let c ← pyFloat c
      let d ← pyFloat d
      let e ← pyFloat e
      let f ← pyFloat f
      .ok ⟨a, b, c, d, e, f, js.gripper, now⟩
  | l =>
      .error ("ValueError: Expected 6 joint values, got " ++ toString l.length)

/-! ### `robot_teleop/utils.py` : `validate_joint_limits` -/

/-- The exact rational value of the IEEE-754 double `numpy.pi`
(`884279719003555 * 2 ^ -48`), the hardcoded default bound used by
`joint_limits[name].get('min', -np.pi)` / `.get('max', np.pi)`. -/
def npPi : ℚ := 884279719003555 / 281474976710656

/-- One entry of the limit table: the inner Python dict, whose `'min'` and
`'max'` keys may each be absent. -/
structure LimitEntry where
  minq : Option ℚ
  maxq : Option ℚ
deriving DecidableEq, Repr

/-- The limit table `joint_limits: Dict[str, Dict[str, float]]`, as an
association list looked up by joint name. -/
abbrev LimitTable := List (String × LimitEntry)

/-- `f"joint_{i}"`. -/
def jointName (i : Nat) : String := "joint_" ++ toString i

/-- The per-joint check of the `validate_joint_limits` loop body: a joint
violates iff its name is in the table and its value is strictly below
`get('min', -np.pi)` or strictly above `get('max', np.pi)`. -/
def jointBad (limits : LimitTable) (i : Nat) (v : ℚ) : Bool :=
  match limits.lookup (jointName i) with
  | none => false
  | some e => v < e.minq.getD (-npPi) || v > e.maxq.getD npPi

/-- The violation message appended for a bad joint (the f-string renders the
value and bounds with 3 decimals; the numeric rendering is presentational, so
we print the exact rationals). -/
def violationMsg (limits : LimitTable) (i : Nat) (v : ℚ) : String :=
  match limits.lookup (jointName i) with
  | none => ""
  | some e =>
      jointName i ++ ": value " ++ toString v ++ " outside limits [" ++
        toString (e.minq.getD (-npPi)) ++ ", " ++ toString (e.maxq.getD npPi) ++ "]"

/-- The `for i, value in enumerate(values_to_check)` loop accumulating
violation messages. -/
def violationLoop (limits : LimitTable) : Nat → List ℚ → List String
  | _, [] => []
  | i, v :: vs =>
      if jointBad limits i v then
        violationMsg limits i v :: violationLoop limits (i + 1) vs
      else
        violationLoop limits (i + 1) vs

/-- `validate_joint_limits(joint_values, joint_limits)` on an already
extracted list of values: returns `(len(violations) == 0, violations)`. -/
def validate_joint_limits (values : List ℚ) (limits : LimitTable) :
    Bool × List String :=
  let violations := violationLoop limits 0 values
  (violations.length = 0, violations)

/-! ### `robot_teleop/utils.py` : `transform_joints` -/

/-- Python/numpy sequence index normalisation for a sequence of length
`len`: a negative index counts from the end; the result is `none` when the
access would raise `IndexError`. -/
def npIdx (len : Nat) (i : Int) : Option Nat :=
  let j : Int := if i < 0 then i + len else i
  if 0 ≤ j ∧ j < (len : Int) then some j.toNat else none

/-- `xs[i]` on a numpy 1-D array (read). -/
def npGet (l : List ℚ) (i : Int) : Option ℚ :=
  (npIdx l.length i).map fun j => l.getD j 0

/-- `np.zeros_like(transformed)`. -/
def npZerosLike (l : List ℚ) : List ℚ := l.map fun _ => 0

/-- One iteration of the mapping loop:
`if src_idx < len(transformed) and dst_idx < len(mapped): mapped[dst_idx] = transformed[src_idx]`.
The guard compares Python ints signedly (a negative index passes it); inside
the guard the read and the write use sequence indexing and may raise
`IndexError`. -/
def mapStep (v : List ℚ) (acc : List ℚ) (p : Int × Int) :
    Except String (List ℚ) :=
  if p.1 < (v.length : Int) ∧ p.2 < (acc.length : Int) then
    match npGet v p.1 with
    | none => .error "IndexError: index out of bounds for axis 0"
    | some x =>
        match npIdx acc.length p.2 with
        | none => .error "IndexError: index out of bounds for axis 0"
        | some j => .ok (acc.set j x)
  else
    .ok acc

/-- `for src_idx, dst_idx in joint_mapping.items(): ...` over the insertion
order of the dict. -/
def mapLoop (v : List ℚ) : List (Int × Int) → List ℚ → Except String (List ℚ)
  | [], acc => .ok acc
  | p :: ps, acc =>
      match mapStep v acc p with
      | .error e => .error e
      | .ok acc2 => mapLoop v ps acc2

/-- The mapping stage: `if joint_mapping:` (both `None` and the empty dict
are falsy and skip the stage), else fold the loop over a zero array. -/
def applyMapping (mapping : List (Int × Int)) (v : List ℚ) :
    Except String (List ℚ) :=
  if mapping = [] then .ok v
  else mapLoop v mapping (npZerosLike v)

/-- Dot product of a matrix row with the joint vector. -/
def dotProd (row v : List ℚ) : ℚ :=
  (List.zipWith (fun a b => a * b) row v).sum

/-- The matrix stage: `if transformation_matrix.shape[0] == len(transformed)`
apply the standard matrix–vector product, otherwise warn and skip.  A numpy
`ndarray` is rectangular; `m @ v` additionally needs the column count to
match `len(v)`, else numpy raises `ValueError`. -/
def matrixStage (m : List (List ℚ)) (v : List ℚ) : Except String (List ℚ) :=
  if m.length = v.length then
    if m.all fun row => row.length = v.length then
      .ok (m.map fun row => dotProd row v)
    else
      .error "ValueError: matmul dimension mismatch"
  else
    .ok v

/-- The offsets stage: `if len(offsets_array) == len(transformed)` add
element-wise, otherwise warn and leave the vector unchanged. -/
def offsetStage (off : List ℚ) (v : List ℚ) : List ℚ :=
  if off.length = v.length then List.zipWith (fun a b => a + b) v off else v

/-- The three joint stages of `transform_joints` in source order:
mapping, then matrix (when configured), then offsets (when configured). -/
def transformCore (v : List ℚ) (matrix : Option (List (List ℚ)))
    (mapping : List (Int × Int)) (offsets : Option (List ℚ)) :
    Except String (List ℚ) :=
  match applyMapping mapping v with
  | .error e => .error e
  | .ok m1 =>
      match (match matrix with
             | none => Except.ok m1
             | some mx => matrixStage mx m1) with
      | .error e => .error e
      | .ok m2 =>
          match offsets with
          | none => .ok m2
          | some off => .ok (offsetStage off m2)

/-- The gripper stage:
`max(0.0, min(1.0, original_gripper * gripper_scale + gripper_offset))`. -/
def clampGripper (g s o : ℚ) : ℚ := max 0 (min 1 (g * s + o))

/-- `transform_joints` on a plain list input (`is_joint_state == False`):
returns the transformed joint list only; the gripper parameters are unused
on this path. -/
def transform_joints_list (v : List ℚ) (matrix : Option (List (List ℚ)))
    (mapping : List (Int × Int)) (offsets : Option (List ℚ)) :
    Except String (List ℚ) :=
  transformCore v matrix mapping offsets

/-- `transform_joints` on a `JointState` input (`is_joint_state == True`):
returns the Python tuple `(transformed_joints, transformed_gripper)`. -/
def transform_joints_state (js : JointState) (matrix : Option (List (List ℚ)))
    (mapping : List (Int × Int)) (offsets : Option (List ℚ))
    (gripper_scale gripper_offset : ℚ) : Except String (List ℚ × ℚ) :=
  match transformCore js.to_list matrix mapping offsets with
  | .error e => .error e
  | .ok joints =>
      .ok (joints, clampGripper js.gripper gripper_scale gripper_offset)

/-! ### `robot_teleop/master.py` : `MasterNode` -/

/-- The master's message counters (`messages_received`, `messages_published`,
`messages_blocked`), all starting at 0 in `__init__`. -/
structure Stats where
  received : Nat
  published : Nat
  blocked : Nat
deriving DecidableEq, Repr

/-- The pipeline-relevant configuration a `MasterNode` holds after
`__init__`.  Note that `__init__` stores only `joint_limits`,
`joint_mapping`, `transformation_matrix` and `joint_offsets`; it has no
`gripper_scale` / `gripper_offset` attributes, so `process_joint_state`
calls `transform_joints` with the defaults 1.0 / 0.0.
`joint_mapping = []` covers both `None` and the (equally falsy) empty
dict. -/
structure MasterConfig where
  joint_limits : LimitTable
  joint_mapping : List (Int × Int)
  transformation_matrix : Option (List (List ℚ))
  joint_offsets : Option (List ℚ)
deriving Repr

/-- `MasterNode.process_joint_state`.  The source calls
`transform_joints(joint_state, matrix, mapping, offsets)` — a `JointState`
argument, so the call returns the tuple `(transformed_joints, gripper)` —
and then passes that whole tuple to `joint_state.apply_joint_values`, where
it is a sequence of the two elements `[joints_list, gripper_float]`.
Returns the updated counters (the blocked counter is incremented inside the
method) and either the processed state (`some`), the blocked outcome
(`none`), or the exception the call raised. -/
def process_joint_state (cfg : MasterConfig) (stats : Stats)
    (js : JointState) (now : ℚ) : Stats × Except String (Option JointState) :=
  match transform_joints_state js cfg.transformation_matrix cfg.joint_mapping
      cfg.joint_offsets 1 0 with
  | .error e => (stats, .error e)
  | .ok tj =>
      match js.apply_joint_values [.floatList tj.1, .float tj.2] now with
      | .error e => (stats, .error e)
      | .ok ts =>
          if cfg.joint_limits ≠ [] then
            let r := validate_joint_limits ts.to_list cfg.joint_limits
            if r.1 then (stats, .ok (some ts))
            else ({ stats with blocked := stats.blocked + 1 }, .ok none)
          else
            (stats, .ok (some ts))

/-- One iteration of `MasterNode.start` for one decoded message: increment
`messages_received`, run `process_joint_state`, increment
`messages_published` on a forwarded state; an exception from processing is
caught by the loop's blanket `except Exception` handler, which only logs. -/
def masterStep (cfg : MasterConfig) (stats : Stats)
    (msg : JointState × ℚ) : Stats :=
  match process_joint_state cfg { stats with received := stats.received + 1 }
      msg.1 msg.2 with
  | (s2, .ok (some _)) => { s2 with published := s2.published + 1 }
  | (s2, .ok none) => s2
  | (s2, .error _) => s2

/-- Running the master's processing loop over a sequence of decoded
messages. -/
def masterRun (cfg : MasterConfig) (stats : Stats)
    (msgs : List (JointState × ℚ)) : Stats :=
  msgs.foldl (masterStep cfg) stats

/-! ### Spec-side helpers used only to state claims -/

/-- Normalised Python sequence index: a negative index counts from the end
of a length-`len` sequence. -/
def normIdx (len : Nat) (i : Int) : Int := if i < 0 then i + len else i

/-- The source index of the last mapping pair that passes the loop's guard
(`src < 6 and dst < 6`) and whose normalised destination is `j`; later dict
entries overwrite earlier ones. -/
def lastHit (mapping : List (Int × Int)) (j : Int) : Option Int :=
  ((mapping.filter fun p =>
      p.1 < 6 ∧ p.2 < 6 ∧ normIdx 6 p.2 = j).getLast?).map Prod.fst

/-- The identity joint mapping `{0:0, 1:1, 2:2, 3:3, 4:4, 5:5}`. -/
def idMapping : List (Int × Int) := [(0, 0), (1, 1), (2, 2), (3, 3), (4, 4), (5, 5)]

/-- The 6x6 identity matrix. -/
def idMatrix6 : List (List ℚ) :=
  [[1, 0, 0, 0, 0, 0], [0, 1, 0, 0, 0, 0], [0, 0, 1, 0, 0, 0],
   [0, 0, 0, 1, 0, 0], [0, 0, 0, 0, 1, 0], [0, 0, 0, 0, 0, 1]]

/-- Six zero offsets. -/
def zeroOffsets6 : List ℚ := [0, 0, 0, 0, 0, 0]

/-- A concrete master configuration: one limit entry wide enough to pass,
no mapping, no matrix, no offsets.  (The configuration cannot carry gripper
parameters at all: `MasterNode.__init__` never stores them.) -/
def exampleConfig : MasterConfig :=
  ⟨[("joint_0", ⟨some (-2), some 2⟩)], [], none, none⟩

/-- A concrete well-formed input state: all joints 0.5, gripper 0.5. -/
def exampleState : JointState := ⟨1/2, 1/2, 1/2, 1/2, 1/2, 1/2, 1/2, 0⟩

/-! ## Shared lemmas about the stages -/

lemma mapStep_length (v acc : List ℚ) (p : Int × Int) (out : List ℚ)
    (h : mapStep v acc p = Except.ok out) : out.length = acc.length := by
  unfold mapStep at h
  by_cases hc : p.1 < (v.length : Int) ∧ p.2 < (acc.length : Int)
  · rw [if_pos hc] at h
    cases hg : npGet v p.1 with
    | none => rw [hg] at h; cases h
    | some x =>
      rw [hg] at h
      cases hi : npIdx acc.length p.2 with
      | none => rw [hi] at h; cases h
      | some j =>
        rw [hi] at h
        injection h with h
        subst h
        simp
  · rw [if_neg hc] at h
    injection h with h
    subst h
    rfl

lemma mapLoop_length (v : List ℚ) (m : List (Int × Int)) :
    ∀ acc out, mapLoop v m acc = Except.ok out → out.length = acc.length := by
  induction m with
  | nil =>
    intro acc out h
    unfold mapLoop at h
    injection h with h
    subst h
    rfl
  | cons p ps ih =>
    intro acc out h
    unfold mapLoop at h
    cases hs : mapStep v acc p with
    | error e => rw [hs] at h; cases h
    | ok acc2 =>
      rw [hs] at h
      rw [ih acc2 out h, mapStep_length v acc p acc2 hs]

lemma applyMapping_length (m : List (Int × Int)) (v out : List ℚ)
    (h : applyMapping m v = Except.ok out) : out.length = v.length := by
  unfold applyMapping at h
  split at h
  · injection h with h; subst h; rfl
  · have h2 := mapLoop_length v m _ _ h
    simpa [npZerosLike] using h2

lemma matrixStage_length (m : List (List ℚ)) (v out : List ℚ)
    (h : matrixStage m v = Except.ok out) : out.length = v.length := by
  unfold matrixStage at h
  split at h
  · split at h
    · injection h with h
      subst h
      simpa using by assumption
    · cases h
  · injection h with h; subst h; rfl

/-- `process_joint_state` raises on every input: `transform_joints` gets a
`JointState` and hence returns a 2-tuple, which `apply_joint_values` rejects
with `ValueError` (when the transform itself did not already raise an
`IndexError`).  The counters are left untouched either way. -/
lemma process_joint_state_err (cfg : MasterConfig) (stats : Stats)
    (js : JointState) (now : ℚ) :
    ∃ e, process_joint_state cfg stats js now = (stats, Except.error e) := by
  unfold process_joint_state
  cases ht : transform_joints_state js cfg.transformation_matrix cfg.joint_mapping
      cfg.joint_offsets 1 0 with
  | error e => exact ⟨e, rfl⟩
  | ok tj => exact ⟨_, rfl⟩

/-! ## Claim theorems -/

/-- C1: the claim is right and the code is wrong.  `process_joint_state`
passes the tuple returned by `transform_joints` (a `JointState` was handed
in, so a `(joints, gripper)` pair comes back) to `apply_joint_values`,
whose length check sees 2 values and raises `ValueError`; moreover
`MasterNode` never stores or forwards `gripper_scale`/`gripper_offset`.
Evaluated at a concrete well-formed input, processing raises instead of
returning a state whose gripper is the transform result. -/
theorem process_joint_state_raises_valueerror :
    process_joint_state exampleConfig ⟨0, 0, 0⟩ exampleState 0 =
      (⟨0, 0, 0⟩, Except.error "ValueError: Expected 6 joint values, got 2") := rfl

/-- C2: the claim is right and the code is wrong.  Because every
`process_joint_state` call raises (see C1) and the loop's blanket
`except Exception` handler swallows the exception after
`messages_received` was already incremented, after `N` processed messages
`received = N` but `published` and `blocked` are both still 0, so
`published + blocked = N` fails for every `N ≥ 1`. -/
theorem master_counters_stuck (cfg : MasterConfig) (s : Stats)
    (msgs : List (JointState × ℚ)) :
    (masterRun cfg s msgs).received = s.received + msgs.length ∧
    (masterRun cfg s msgs).published = s.published ∧
    (masterRun cfg s msgs).blocked = s.blocked := by
  induction msgs generalizing s with
  | nil => simp [masterRun]
  | cons msg rest ih =>
    have hstep : masterStep cfg s msg = { s with received := s.received + 1 } := by
      unfold masterStep
      obtain ⟨e, he⟩ := process_joint_state_err cfg
        { s with received := s.received + 1 } msg.1 msg.2
      rw [he]
    have h2 := ih { s with received := s.received + 1 }
    simp only [masterRun, List.foldl_cons] at *
    rw [hstep]
    refine ⟨?_, h2.2.1, h2.2.2⟩
    rw [h2.1]
    simp
    omega

/-- C5: confirmed.  Whenever `transform_joints` returns on a `JointState`
input, the gripper component equals
`max(0, min(1, gripper * gripper_scale + gripper_offset))`, hence always
lies in `[0, 1]`, for every scale and offset of any sign and magnitude. -/
theorem gripper_clamped (js : JointState) (matrix : Option (List (List ℚ)))
    (mapping : List (Int × Int)) (offsets : Option (List ℚ)) (s o : ℚ)
    (out : List ℚ × ℚ)
    (h : transform_joints_state js matrix mapping offsets s o = Except.ok out) :
    out.2 = max 0 (min 1 (js.gripper * s + o)) ∧ 0 ≤ out.2 ∧ out.2 ≤ 1 := by
  unfold transform_joints_state at h
  cases ht : transformCore js.to_list matrix mapping offsets with
  | error e => rw [ht] at h; cases h
  | ok joints =>
    rw [ht] at h
    injection h with h
    subst h
    refine ⟨rfl, le_max_left _ _, ?_⟩
    exact max_le (by norm_num) (min_le_left _ _)

/-- Witness for C5 at gripper 0.5, scale 3, offset 0: the returned gripper
is the clamp result 1. -/
theorem gripper_clamped_witness :
    ((([0, 0, 0, 0, 0, 0], 1) : List ℚ × ℚ).2 =
        max 0 (min 1 ((1 : ℚ) / 2 * 3 + 0)) ∧
      (0 : ℚ) ≤ ((([0, 0, 0, 0, 0, 0], 1) : List ℚ × ℚ)).2 ∧
      ((([0, 0, 0, 0, 0, 0], 1) : List ℚ × ℚ)).2 ≤ 1) :=
  gripper_clamped ⟨0, 0, 0, 0, 0, 0, 1/2, 0⟩ none [] none 3 0 ([0, 0, 0, 0, 0, 0], 1)
    (by norm_num [transform_joints_state, transformCore, applyMapping, clampGripper,
      JointState.to_list])

/-- C7: confirmed.  On the concrete input `[1,2,3,4,5,6]` with the given
mapping, diagonal matrix and offsets, the stages apply in the order
mapping, matrix, offsets and produce exactly
`[1.7, 1.1, 2.0, 7.8, 1.5, 6.0]` (exact rational equality, hence within
1e-6). -/
theorem composition_concrete :
    transform_joints_list [1, 2, 3, 4, 5, 6]
        (some [[8/10, 0, 0, 0, 0, 0], [0, 12/10, 0, 0, 0, 0], [0, 0, 5/10, 0, 0, 0],
               [0, 0, 0, 2, 0, 0], [0, 0, 0, 0, 1/10, 0], [0, 0, 0, 0, 0, 1]])
        [(0, 1), (1, 0), (2, 2), (3, 3), (4, 4), (5, 5)]
        (some [1/10, -1/10, 5/10, -2/10, 1, 0]) =
      Except.ok [17/10, 11/10, 2, 78/10, 15/10, 6] := by
  simp +decide only [transform_joints_list, transformCore, applyMapping, mapLoop,
    mapStep, npGet, npIdx, npZerosLike, matrixStage, dotProd, offsetStage,
    List.getD, List.set, Int.toNat, List.zipWith, List.all, List.map,
    List.length_cons, List.length_nil, List.sum_cons, List.sum_nil,
    List.get?, Option.getD]
  norm_num

lemma violationLoop_eq_nil (limits : LimitTable) :
    ∀ (i : Nat) (vs : List ℚ),
      (violationLoop limits i vs = [] ↔
        ∀ k, k < vs.length → jointBad limits (i + k) (vs.getD k 0) = false) := by
  intro i vs
  induction vs generalizing i with
  | nil => simp [violationLoop]
  | cons v rest ih =>
    unfold violationLoop
    by_cases hb : jointBad limits i v
    · rw [if_pos hb]
      constructor
      · intro h; cases h
      · intro h
        have h0 := h 0 (by simp)
        simp only [Nat.add_zero, List.getD_cons_zero] at h0
        rw [hb] at h0
        cases h0
    · rw [if_neg hb]
      rw [ih (i + 1)]
      constructor
      · intro h k hk
        cases k with
        | zero =>
          simp only [Nat.add_zero, List.getD_cons_zero]
          exact Bool.eq_false_iff.mpr hb
        | succ k2 =>
          have h2 := h k2 (by simpa using hk)
          have he : i + (k2 + 1) = (i + 1) + k2 := by omega
          rw [he, List.getD_cons_succ]
          exact h2
      · intro h k hk
        have h2 := h (k + 1) (by simpa using hk)
        have he : i + (k + 1) = (i + 1) + k := by omega
        rw [he, List.getD_cons_succ] at h2
        exact h2

theorem validate_joint_limits_spec (values : List ℚ) (limits : LimitTable) :
    ((validate_joint_limits values limits).1 = true ↔
        (validate_joint_limits values limits).2 = []) ∧
    ((validate_joint_limits values limits).1 = true ↔
        ∀ k, k < values.length → jointBad limits k (values.getD k 0) = false) ∧
    (∀ i v, limits.lookup (jointName i) = none → jointBad limits i v = false) ∧
    (∀ i v mn mx, limits.lookup (jointName i) = some ⟨some mn, some mx⟩ →
        (jointBad limits i v = false ↔ mn ≤ v ∧ v ≤ mx)) := by
  refine ⟨?_, ?_, ?_, ?_⟩
  · simp [validate_joint_limits, List.length_eq_zero]
  · simp only [validate_joint_limits, decide_eq_true_eq, List.length_eq_zero]
    have h := violationLoop_eq_nil limits 0 values
    simpa using h
  · intro i v hl
    simp [jointBad, hl]
  · intro i v mn mx hl
    simp [jointBad, hl, not_lt]

theorem default_limit_bounds (v mn mx : ℚ) (rest : LimitTable) :
    ((validate_joint_limits [v] (("joint_0", ⟨none, some mx⟩) :: rest)).1 = true ↔
        -npPi ≤ v ∧ v ≤ mx) ∧
    ((validate_joint_limits [v] (("joint_0", ⟨some mn, none⟩) :: rest)).1 = true ↔
        mn ≤ v ∧ v ≤ npPi) := by
  have key : ∀ e : LimitEntry,
      ((validate_joint_limits [v] (("joint_0", e) :: rest)).1 = true ↔
        jointBad (("joint_0", e) :: rest) 0 v = false) := by
    intro e
    simp only [validate_joint_limits, decide_eq_true_eq, List.length_eq_zero]
    rw [violationLoop_eq_nil]
    constructor
    · intro h
      have h0 := h 0 (by simp)
      simpa using h0
    · intro h k hk
      have hk0 : k = 0 := by simpa [Nat.lt_one_iff] using hk
      subst hk0
      simpa using h
  have hlook : ∀ e : LimitEntry,
      (("joint_0", e) :: rest).lookup (jointName 0) = some e := by
    intro e
    rfl
  constructor
  · rw [key ⟨none, some mx⟩]
    unfold jointBad
    rw [hlook]
    simp [not_lt]
  · rw [key ⟨some mn, none⟩]
    unfold jointBad
    rw [hlook]
    simp [not_lt]

/-- Witness for C6: a value inside the configured range validates, and the
present-entry characterisation evaluates at joint 0. -/
theorem validate_joint_limits_spec_witness :
    ((validate_joint_limits [1/5] [("joint_0", ⟨some (-1/2), some (1/2)⟩)]).1 = true ↔
        (validate_joint_limits [1/5] [("joint_0", ⟨some (-1/2), some (1/2)⟩)]).2 = []) ∧
    (jointBad [("joint_0", ⟨some (-1/2), some (1/2)⟩)] 0 (1/5) = false ↔
        (-1/2 : ℚ) ≤ 1/5 ∧ (1/5 : ℚ) ≤ 1/2) :=
  ⟨(validate_joint_limits_spec [1/5] [("joint_0", ⟨some (-1/2), some (1/2)⟩)]).1,
   (validate_joint_limits_spec [1/5] [("joint_0", ⟨some (-1/2), some (1/2)⟩)]).2.2.2
     0 (1/5) (-1/2) (1/2) rfl⟩

/-- Witness for C10 at a single-entry table with only a `'max'` key. -/
theorem default_limit_bounds_witness :
    (validate_joint_limits [4] [("joint_0", ⟨none, some 5⟩)]).1 = true ↔
      -npPi ≤ (4 : ℚ) ∧ (4 : ℚ) ≤ 5 :=
  (default_limit_bounds 4 0 5 []).1

lemma apply_joint_values_floats (js : JointState) (a b c d e f : ℚ) (now : ℚ) :
    js.apply_joint_values
        [.float a, .float b, .float c, .float d, .float e, .float f] now =
      Except.ok ⟨a, b, c, d, e, f, js.gripper, now⟩ := rfl

/-- C9: confirmed.  `from_list` and `apply_joint_values` succeed exactly on
collections of 6 values and raise `ValueError` exactly on every other
length; on success the state carries exactly the 6 given joint values
(`from_list` installs the given gripper, `apply_joint_values` preserves the
receiver's). -/
theorem constructor_length_check (l : List ℚ) (g : ℚ) (t? : Option ℚ)
    (now : ℚ) (js : JointState) :
    ((∃ out, JointState.from_list l g t? now = Except.ok out ∧
        out.to_list = l ∧ out.gripper = g) ↔ l.length = 6) ∧
    ((∃ e, JointState.from_list l g t? now = Except.error e) ↔ l.length ≠ 6) ∧
    ((∃ out, js.apply_joint_values (l.map PySeqElem.float) now = Except.ok out ∧
        out.to_list = l ∧ out.gripper = js.gripper) ↔ l.length = 6) ∧
    ((∃ e, js.apply_joint_values (l.map PySeqElem.float) now = Except.error e) ↔
        l.length ≠ 6) := by
  rcases l with _ | ⟨a, _ | ⟨b, _ | ⟨c, _ | ⟨d, _ | ⟨e, _ | ⟨f, _ | ⟨x, rest⟩⟩⟩⟩⟩⟩⟩ <;>
    simp [JointState.from_list, JointState.apply_joint_values, JointState.to_list,
      pyFloat, apply_joint_values_floats, Bind.bind, Except.bind]

/-- Witness for C9 at the length-3 collection `[1, 2, 3]`. -/
theorem constructor_length_check_witness :
    ((∃ out, JointState.from_list [1, 2, 3] 0 none 0 = Except.ok out ∧
        out.to_list = [1, 2, 3] ∧ out.gripper = 0) ↔
      ([1, 2, 3] : List ℚ).length = 6) ∧
    ((∃ e, JointState.from_list [1, 2, 3] 0 none 0 = Except.error e) ↔
      ([1, 2, 3] : List ℚ).length ≠ 6) ∧
    ((∃ out, JointState.apply_joint_values ⟨0, 0, 0, 0, 0, 0, 0, 0⟩
          (([1, 2, 3] : List ℚ).map PySeqElem.float) 0 = Except.ok out ∧
        out.to_list = [1, 2, 3] ∧
        out.gripper = (⟨0, 0, 0, 0, 0, 0, 0, 0⟩ : JointState).gripper) ↔
      ([1, 2, 3] : List ℚ).length = 6) ∧
    ((∃ e, JointState.apply_joint_values ⟨0, 0, 0, 0, 0, 0, 0, 0⟩
          (([1, 2, 3] : List ℚ).map PySeqElem.float) 0 = Except.error e) ↔
      ([1, 2, 3] : List ℚ).length ≠ 6) :=
  constructor_length_check [1, 2, 3] 0 none 0 ⟨0, 0, 0, 0, 0, 0, 0, 0⟩

/-- C3 counterexample: with the empty configuration the gripper is *not*
returned unchanged for every `JointState` — a state with gripper 2 comes
back with gripper `clamp(2*1+0, 0, 1) = 1 ≠ 2`. -/
theorem transform_empty_config_gripper_cex :
    transform_joints_state ⟨0, 0, 0, 0, 0, 0, 2, 0⟩ none [] none 1 0 =
      Except.ok ([0, 0, 0, 0, 0, 0], 1) ∧ (1 : ℚ) ≠ 2 := by
  constructor
  · norm_num [transform_joints_state, transformCore, applyMapping,
      JointState.to_list, clampGripper]
  · norm_num

/-- C3 amended: for every `JointState` whose gripper already lies in
`[0, 1]`, `transform_joints` with the empty configuration — and likewise
with identity mapping, identity matrix and all-zero offsets — returns the
six joint values and the gripper unchanged.  (The gripper always passes
through `clamp(·, 0, 1)`, so out-of-range grippers are clamped even under
these configurations.) -/
theorem transform_identity_configs (js : JointState)
    (h0 : 0 ≤ js.gripper) (h1 : js.gripper ≤ 1) :
    transform_joints_state js none [] none 1 0 =
      Except.ok (js.to_list, js.gripper) ∧
    transform_joints_state js (some idMatrix6) idMapping (some zeroOffsets6) 1 0 =
      Except.ok (js.to_list, js.gripper) := by
  have hg : clampGripper js.gripper 1 0 = js.gripper := by
    unfold clampGripper
    rw [mul_one, add_zero, min_eq_right h1, max_eq_right h0]
  constructor
  · unfold transform_joints_state transformCore applyMapping
    simp [hg]
  · have hmap : applyMapping idMapping js.to_list = Except.ok js.to_list := rfl
    have hmat : matrixStage idMatrix6 js.to_list = Except.ok js.to_list := by
      simp [matrixStage, idMatrix6, dotProd, JointState.to_list]
    have hoff : offsetStage zeroOffsets6 js.to_list = js.to_list := by
      simp [offsetStage, zeroOffsets6, JointState.to_list]
    unfold transform_joints_state transformCore
    rw [hmap]
    simp [hmat, hoff, hg]

/-- Witness for the amended C3 at a concrete state with gripper 0.5. -/
theorem transform_identity_configs_witness :
    transform_joints_state ⟨1, 2, 3, 4, 5, 6, 1/2, 0⟩ none [] none 1 0 =
      Except.ok ((⟨1, 2, 3, 4, 5, 6, 1/2, 0⟩ : JointState).to_list, 1/2) ∧
    transform_joints_state ⟨1, 2, 3, 4, 5, 6, 1/2, 0⟩ (some idMatrix6) idMapping
        (some zeroOffsets6) 1 0 =
      Except.ok ((⟨1, 2, 3, 4, 5, 6, 1/2, 0⟩ : JointState).to_list, 1/2) :=
  transform_identity_configs ⟨1, 2, 3, 4, 5, 6, 1/2, 0⟩ (by norm_num) (by norm_num)

/-- C8: confirmed.  A matrix whose row count differs from 6 skips the matrix
stage (the output is the mapping-stage result), an offsets sequence whose
length differs from 6 skips the offset stage (the output is the
pre-offset-stage result), and neither mismatch raises: the function still
returns `Except.ok`. -/
theorem config_shape_mismatch_nonfatal
    (v : List ℚ) (hv : v.length = 6)
    (mapping : List (Int × Int)) (mapped : List ℚ)
    (hmap : applyMapping mapping v = Except.ok mapped)
    (mat : List (List ℚ)) (hmat : mat.length ≠ 6)
    (off : List ℚ) (hoff : off.length ≠ 6) :
    transform_joints_list v (some mat) mapping none = Except.ok mapped ∧
    transform_joints_list v (some mat) mapping (some off) = Except.ok mapped ∧
    (∀ (mat2 : Option (List (List ℚ))) (pre : List ℚ),
        transform_joints_list v mat2 mapping none = Except.ok pre →
        transform_joints_list v mat2 mapping (some off) = Except.ok pre) := by
  have hlen : mapped.length = 6 := by
    rw [applyMapping_length mapping v mapped hmap, hv]
  have hmatskip : matrixStage mat mapped = Except.ok mapped := by
    unfold matrixStage
    rw [if_neg]
    omega
  have hoffskip : ∀ m2 : List ℚ, m2.length = 6 → offsetStage off m2 = m2 := by
    intro m2 h2
    unfold offsetStage
    rw [if_neg]
    omega
  refine ⟨?_, ?_, ?_⟩
  · unfold transform_joints_list transformCore
    rw [hmap]
    simp [hmatskip]
  · unfold transform_joints_list transformCore
    rw [hmap]
    simp [hmatskip, hoffskip mapped hlen]
  · intro mat2 pre hpre
    unfold transform_joints_list transformCore at hpre ⊢
    rw [hmap] at hpre ⊢
    cases mat2 with
    | none =>
      simp at hpre ⊢
      subst hpre
      exact hoffskip mapped hlen
    | some mx =>
      cases hmx : matrixStage mx mapped with
      | error e =>
        simp [hmx] at hpre
      | ok m2 =>
        simp [hmx] at hpre ⊢
        have hm2 : m2.length = 6 := by
          rw [matrixStage_length mx mapped m2 hmx, hlen]
        rw [hoffskip m2 hm2]
        exact hpre

/-- Witness for C8: a 2-row matrix and length-3 offsets are skipped on a
6-joint input without raising. -/
theorem config_shape_mismatch_nonfatal_witness :
    transform_joints_list [1, 2, 3, 4, 5, 6] (some [[1], [2]]) [] none =
      Except.ok [1, 2, 3, 4, 5, 6] ∧
    transform_joints_list [1, 2, 3, 4, 5, 6] (some [[1], [2]]) []
        (some [1, 2, 3]) = Except.ok [1, 2, 3, 4, 5, 6] ∧
    (∀ (mat2 : Option (List (List ℚ))) (pre : List ℚ),
        transform_joints_list [1, 2, 3, 4, 5, 6] mat2 [] none = Except.ok pre →
        transform_joints_list [1, 2, 3, 4, 5, 6] mat2 [] (some [1, 2, 3]) =
          Except.ok pre) :=
  config_shape_mismatch_nonfatal [1, 2, 3, 4, 5, 6] rfl [] [1, 2, 3, 4, 5, 6]
    rfl [[1], [2]] (by decide) [1, 2, 3] (by decide)

lemma npIdx_in_range (i : Int) (h1 : -6 ≤ i) (h2 : i < 6) :
    npIdx 6 i = some (normIdx 6 i).toNat := by
  simp only [npIdx, normIdx]
  rw [if_pos]
  split_ifs <;> omega

lemma npGet_in_range (v : List ℚ) (hv : v.length = 6) (i : Int)
    (h1 : -6 ≤ i) (h2 : i < 6) :
    npGet v i = some (v.getD (normIdx 6 i).toNat 0) := by
  unfold npGet
  rw [hv, npIdx_in_range i h1 h2]
  rfl

lemma npZerosLike_getD (l : List ℚ) (j : Nat) : (npZerosLike l).getD j 0 = 0 := by
  induction l generalizing j with
  | nil => rfl
  | cons a rest ih =>
    cases j with
    | zero => rfl
    | succ k => exact ih k

lemma lastHit_cons (p : Int × Int) (ps : List (Int × Int)) (j : Int) :
    lastHit (p :: ps) j =
      match lastHit ps j with
      | some s => some s
      | none =>
          if p.1 < 6 ∧ p.2 < 6 ∧ normIdx 6 p.2 = j then some p.1 else none := by
  unfold lastHit
  rw [List.filter_cons]
  by_cases hc : p.1 < 6 ∧ p.2 < 6 ∧ normIdx 6 p.2 = j
  · rw [if_pos (by simpa using hc)]
    cases hfil : ps.filter
        (fun q => decide (q.1 < 6 ∧ q.2 < 6 ∧ normIdx 6 q.2 = j)) with
    | nil =>
      simp [hfil, hc]
    | cons q qs =>
      rw [List.getLast?_cons_cons]
      cases hlast : (q :: qs).getLast? with
      | none =>
        exact absurd (List.getLast?_eq_none_iff.mp hlast) (by simp)
      | some r =>
        simp [hfil, hlast]
  · rw [if_neg (by simpa using hc)]
    cases hl : (ps.filter
        (fun q => decide (q.1 < 6 ∧ q.2 < 6 ∧ normIdx 6 q.2 = j))).getLast? with
    | none => simp [hl, hc]
    | some r => simp [hl]

/-- The mapping loop on a 6-element input and a 6-element accumulator, for a
mapping whose guard-passing pairs all stay above -6 (so no `IndexError`):
it succeeds, preserves the length, and destination `j` holds the value
selected by the *last* guard-passing pair whose (Python-normalised)
destination index is `j`, or the accumulator's entry when no pair targets
`j`. -/
lemma mapLoop_ok_char (v : List ℚ) (hv : v.length = 6) :
    ∀ (m : List (Int × Int)) (acc : List ℚ), acc.length = 6 →
      (∀ p ∈ m, p.1 < 6 ∧ p.2 < 6 → -6 ≤ p.1 ∧ -6 ≤ p.2) →
      ∃ out, mapLoop v m acc = Except.ok out ∧ out.length = 6 ∧
        ∀ j : Nat, j < 6 →
          out.getD j 0 = (match lastHit m (j : Int) with
            | some src => v.getD (normIdx 6 src).toNat 0
            | none => acc.getD j 0) := by
  intro m
  induction m with
  | nil =>
    intro acc hacc _
    refine ⟨acc, rfl, hacc, ?_⟩
    intro j hj
    simp [lastHit]
  | cons p ps ih =>
    intro acc hacc hsafe
    by_cases hg : p.1 < (6 : Int) ∧ p.2 < (6 : Int)
    · obtain ⟨hs1, hs2⟩ := hsafe p (by simp) hg
      have hidx2 : npIdx acc.length p.2 = some (normIdx 6 p.2).toNat := by
        rw [hacc]
        exact npIdx_in_range p.2 hs2 hg.2
      have hget : npGet v p.1 = some (v.getD (normIdx 6 p.1).toNat 0) :=
        npGet_in_range v hv p.1 hs1 hg.1
      have hstep : mapStep v acc p =
          Except.ok (acc.set (normIdx 6 p.2).toNat
            (v.getD (normIdx 6 p.1).toNat 0)) := by
        unfold mapStep
        rw [if_pos (by rw [hv, hacc]; push_cast; exact hg), hget, hidx2]
      have hlen2 : (acc.set (normIdx 6 p.2).toNat
          (v.getD (normIdx 6 p.1).toNat 0)).length = 6 := by
        rw [List.length_set, hacc]
      obtain ⟨out, hout, hlen, hchar⟩ := ih
        (acc.set (normIdx 6 p.2).toNat (v.getD (normIdx 6 p.1).toNat 0)) hlen2
        (fun q hq hql => hsafe q (List.mem_cons_of_mem p hq) hql)
      refine ⟨out, ?_, hlen, ?_⟩
      · unfold mapLoop
        rw [hstep]
        exact hout
      · intro j hj
        rw [hchar j hj, lastHit_cons]
        cases hl : lastHit ps (j : Int) with
        | some s => simp
        | none =>
          by_cases hc : p.1 < 6 ∧ p.2 < 6 ∧ normIdx 6 p.2 = (j : Int)
          · have hjset : (normIdx 6 p.2).toNat = j := by
              rw [hc.2.2]
              exact Int.toNat_natCast j
            rw [hjset]
            simp only [if_pos hc]
            rw [List.getD_eq_getElem
                (acc.set j (v.getD (normIdx 6 p.1).toNat 0)) 0
                (by rw [List.length_set, hacc]; exact hj)]
            rw [List.getElem_set_self]
          · have h0 : 0 ≤ normIdx 6 p.2 := by
              unfold normIdx
              split_ifs <;> omega
            have hneInt : normIdx 6 p.2 ≠ (j : Int) :=
              fun h => hc ⟨hg.1, hg.2, h⟩
            have hne : (normIdx 6 p.2).toNat ≠ j := by omega
            simp only [if_neg hc]
            rw [List.getD_eq_getElem
                (acc.set (normIdx 6 p.2).toNat (v.getD (normIdx 6 p.1).toNat 0)) 0
                (by rw [List.length_set, hacc]; exact hj),
              List.getD_eq_getElem acc 0 (by rw [hacc]; exact hj)]
            exact List.getElem_set_ne hne ..
    · have hstep : mapStep v acc p = Except.ok acc := by
        unfold mapStep
        rw [if_neg]
        rw [hv, hacc]
        push_cast
        exact hg
      obtain ⟨out, hout, hlen, hchar⟩ := ih acc hacc
        (fun q hq hql => hsafe q (List.mem_cons_of_mem p hq) hql)
      refine ⟨out, ?_, hlen, ?_⟩
      · unfold mapLoop
        rw [hstep]
        exact hout
      · intro j hj
        rw [hchar j hj, lastHit_cons]
        cases hl : lastHit ps (j : Int) with
        | some s => simp
        | none =>
          have hnc : ¬(p.1 < 6 ∧ p.2 < 6 ∧ normIdx 6 p.2 = (j : Int)) :=
            fun hc => hg ⟨hc.1, hc.2.1⟩
          rw [if_neg hnc]

/-- C4 counterexample: the pair `(-1, 0)` has its source index outside
`[0, 6)`, yet it *does* affect the output — the loop's guard only checks
the upper bound, and numpy resolves index `-1` to the last element, so
destination 0 receives `input[5] = 6`, not 0 as the claim requires. -/
theorem mapping_negative_index_cex :
    applyMapping [((-1 : Int), 0)] [1, 2, 3, 4, 5, 6] =
      Except.ok [6, 0, 0, 0, 0, 0] ∧ (6 : ℚ) ≠ 0 := by
  refine ⟨rfl, by norm_num⟩

/-- C4 amended: the output starts as six zeros and, for each `(src, dst)`
pair, `input` is copied under Python sequence-index semantics: the copy
happens iff `src < 6` and `dst < 6`, where a negative index `-k` (with
`k ≤ 6`) addresses element `6 - k` (an index below -6 raises `IndexError`,
excluded here by hypothesis); pairs with `src ≥ 6` or `dst ≥ 6` have no
effect; a later pair targeting the same destination overwrites an earlier
one; destinations targeted by no pair remain 0.0. -/
theorem mapping_stage_characterization (m : List (Int × Int)) (v : List ℚ)
    (hm : m ≠ []) (hv : v.length = 6)
    (hsafe : ∀ p ∈ m, p.1 < 6 ∧ p.2 < 6 → -6 ≤ p.1 ∧ -6 ≤ p.2) :
    ∃ out, applyMapping m v = Except.ok out ∧ out.length = 6 ∧
      ∀ j : Nat, j < 6 →
        out.getD j 0 = (match lastHit m (j : Int) with
          | some src => v.getD (normIdx 6 src).toNat 0
          | none => 0) := by
  unfold applyMapping
  rw [if_neg hm]
  obtain ⟨out, h1, h2, h3⟩ := mapLoop_ok_char v hv m (npZerosLike v)
    (by simp [npZerosLike, hv]) hsafe
  refine ⟨out, h1, h2, ?_⟩
  intro j hj
  rw [h3 j hj]
  cases lastHit m (j : Int) with
  | some s => rfl
  | none => exact npZerosLike_getD v j

/-- Witness for the amended C4 at the single-pair mapping `{0: 1}`. -/
theorem mapping_stage_characterization_witness :
    ∃ out, applyMapping [((0 : Int), 1)] [1, 2, 3, 4, 5, 6] = Except.ok out ∧
      out.length = 6 ∧
      ∀ j : Nat, j < 6 →
        out.getD j 0 = (match lastHit [((0 : Int), 1)] (j : Int) with
          | some src => List.getD [1, 2, 3, 4, 5, 6] (normIdx 6 src).toNat 0
          | none => 0) :=
  mapping_stage_characterization [((0 : Int), 1)] [1, 2, 3, 4, 5, 6]
    (by decide) rfl (by decide)

end RobotTeleop
